import Mathlib

/-!
Verification of the ktme MCP protocol core: a shallow embedding of
`src/mcp/protocol.rs` (shared JSON-RPC protocol handler and tool dispatcher),
`src/mcp/stdio_server.rs` (line-delimited stream server), and
`src/mcp/server.rs` (stream loop and the network-mode connection handler),
together with theorems settling the spec's claims about them.

External tool implementations (`McpTools::*`), which perform I/O, are treated
as an oracle environment (`ToolEnv`), matching the spec's external-collaborator
boundary; JSON parsing (serde_json) is external, so handlers take the parse
outcome (`Option Json`) as input.
-/

namespace Ktme

/-- Model of `serde_json::Value`. Numbers are modelled as integers; none of the
embedded code inspects numeric values beyond carrying them through. -/
inductive Json where
  | null
  | bool (b : Bool)
  | num (n : Int)
  | str (s : String)
  | arr (elems : List Json)
  | obj (fields : List (String × Json))

/-- Field lookup in an object's field list (serde maps have unique keys). -/
def lookupField : List (String × Json) → String → Option Json
  | [], _ => none
  | (k, v) :: rest, key => if k = key then some v else lookupField rest key

/-- `Value::get(key)`: `Some` for an object with the key, else `None`. -/
def Json.getField : Json → String → Option Json
  | .obj fields, key => lookupField fields key
  | _, _ => none

/-- `Value::as_str()`. -/
def Json.asStr : Json → Option String
  | .str s => some s
  | _ => none

/-- `Value::is_null()`. -/
def Json.isNull : Json → Bool
  | .null => true
  | _ => false

/-- `Value::as_array()`. -/
def Json.asArr : Json → Option (List Json)
  | .arr elems => some elems
  | _ => none

/-- Number projection, for reading error codes out of responses. -/
def Json.asNum : Json → Option Int
  | .num n => some n
  | _ => none

/-- The fragment of `KtmeError` (src/error.rs) reachable from the protocol
core: `InvalidInput` is produced by the dispatcher itself; every other
variant coming back from a tool is only ever observed through its `Display`
rendering, so it is carried as the already-rendered string. -/
inductive KtmeError where
  | invalidInput (msg : String)
  | other (rendered : String)
deriving DecidableEq

/-- `Display` for `KtmeError`: `InvalidInput` renders as
"Invalid input: {0}" (src/error.rs line 28). -/
def KtmeError.render : KtmeError → String
  | .invalidInput m => "Invalid input: " ++ m
  | .other r => r

/-- Oracle for the external tool collaborators (`McpTools::*`): each function
returns a result string or a typed failure, as in §4.4 of the spec. -/
structure ToolEnv where
  read_changes : String → Except KtmeError String
  get_service_mapping : String → Except KtmeError String
  list_services : Unit → Except KtmeError (List String)
  generate_documentation : String → String → Option String → Except KtmeError String
  update_documentation : String → String → String → Except KtmeError String
  search_services : String → Except KtmeError String
  search_by_feature : String → Except KtmeError String
  search_by_keyword : String → Except KtmeError String
  automated_documentation_workflow : String → String → Except KtmeError String
  detect_service_name : Unit → Except KtmeError String
  get_repository_info : Unit → Except KtmeError String

/-- An environment in which every tool call succeeds trivially. -/
def defaultEnv : ToolEnv where
  read_changes := fun _ => .ok ""
  get_service_mapping := fun _ => .ok ""
  list_services := fun _ => .ok []
  generate_documentation := fun _ _ _ => .ok ""
  update_documentation := fun _ _ _ => .ok ""
  search_services := fun _ => .ok ""
  search_by_feature := fun _ => .ok ""
  search_by_keyword := fun _ => .ok ""
  automated_documentation_workflow := fun _ _ => .ok ""
  detect_service_name := fun _ => .ok ""
  get_repository_info := fun _ => .ok ""

/-- `McpProtocolHandler::get_tools_list` (src/mcp/protocol.rs lines 201-361),
the static tool catalog: eleven descriptors, in source order. -/
def getToolsList : List Json := [
  .obj [("name", .str "read_changes"),
    ("description", .str "Read extracted code changes from Git"),
    ("inputSchema", .obj [("type", .str "object"),
      ("properties", .obj [("source", .obj [("type", .str "string"),
        ("description", .str "Source identifier (commit hash, \x27staged\x27, or file path)")])]),
      ("required", .arr [.str "source"])])],
  .obj [("name", .str "get_service_mapping"),
    ("description", .str "Get documentation location for a service"),
    ("inputSchema", .obj [("type", .str "object"),
      ("properties", .obj [("service", .obj [("type", .str "string"),
        ("description", .str "Service name")])]),
      ("required", .arr [.str "service"])])],
  .obj [("name", .str "list_services"),
    ("description", .str "List all mapped services"),
    ("inputSchema", .obj [("type", .str "object"), ("properties", .obj [])])],
  .obj [("name", .str "generate_documentation"),
    ("description", .str "Generate documentation from code changes"),
    ("inputSchema", .obj [("type", .str "object"),
      ("properties", .obj [
        ("service", .obj [("type", .str "string"), ("description", .str "Service name")]),
        ("changes", .obj [("type", .str "string"),
          ("description", .str "JSON string of extracted changes")]),
        ("format", .obj [("type", .str "string"),
          ("description", .str "Output format (markdown, json)"),
          ("enum", .arr [.str "markdown", .str "json"])])]),
      ("required", .arr [.str "service", .str "changes"])])],
  .obj [("name", .str "update_documentation"),
    ("description", .str "Update existing documentation"),
    ("inputSchema", .obj [("type", .str "object"),
      ("properties", .obj [
        ("service", .obj [("type", .str "string"), ("description", .str "Service name")]),
        ("doc_path", .obj [("type", .str "string"),
          ("description", .str "Path to documentation file")]),
        ("content", .obj [("type", .str "string"),
          ("description", .str "Content to append/update")])]),
      ("required", .arr [.str "service", .str "doc_path", .str "content"])])],
  .obj [("name", .str "search_services"),
    ("description", .str "Search services by query with relevance scoring"),
    ("inputSchema", .obj [("type", .str "object"),
      ("properties", .obj [("query", .obj [("type", .str "string"),
        ("description", .str "Search query string")])]),
      ("required", .arr [.str "query"])])],
  .obj [("name", .str "search_by_feature"),
    ("description", .str "Search services by specific feature or functionality"),
    ("inputSchema", .obj [("type", .str "object"),
      ("properties", .obj [("feature", .obj [("type", .str "string"),
        ("description", .str "Feature to search for")])]),
      ("required", .arr [.str "feature"])])],
  .obj [("name", .str "search_by_keyword"),
    ("description", .str "Search services by keyword with flexible matching"),
    ("inputSchema", .obj [("type", .str "object"),
      ("properties", .obj [("keyword", .obj [("type", .str "string"),
        ("description", .str "Keyword to search for")])]),
      ("required", .arr [.str "keyword"])])],
  .obj [("name", .str "automated_documentation_workflow"),
    ("description", .str "Automated workflow: extract changes → generate documentation → save to mapped location"),
    ("inputSchema", .obj [("type", .str "object"),
      ("properties", .obj [
        ("service", .obj [("type", .str "string"), ("description", .str "Service name")]),
        ("source", .obj [("type", .str "string"),
          ("description", .str "Source identifier (commit hash, \x27staged\x27, or file path)")])]),
      ("required", .arr [.str "service", .str "source"])])],
  .obj [("name", .str "detect_service_name"),
    ("description", .str "Detect service name from current directory with AI fallback"),
    ("inputSchema", .obj [("type", .str "object"), ("properties", .obj [])])],
  .obj [("name", .str "get_repository_info"),
    ("description", .str "Get information about the current Git repository and directory"),
    ("inputSchema", .obj [("type", .str "object"), ("properties", .obj [])])]]

/-- The `name` field of a tool descriptor. -/
def toolName (t : Json) : String := ((t.getField "name").bind Json.asStr).getD ""

/-- The names of the statically-registered catalog, in order. -/
def catalogToolNames : List String := getToolsList.map toolName

/-- `arguments.get(key).and_then(|v| v.as_str())`. -/
def argStr (arguments : Json) (key : String) : Option String :=
  (arguments.getField key).bind Json.asStr

/-- `format!("Services: {}", services.join(", "))`. -/
def joinServices (services : List String) : String :=
  "Services: " ++ String.intercalate ", " services

/-- `McpProtocolHandler::execute_tool` (src/mcp/protocol.rs lines 364-458):
dispatch on the tool name; unmatched names fall through to
`InvalidInput("Unknown tool: {name}")`. -/
def executeTool (env : ToolEnv) (tool_name : String) (arguments : Json) :
    Except KtmeError String :=
  if tool_name = "read_changes" then
    match argStr arguments "source" with
    | some source => env.read_changes source
    | none => .error (.invalidInput "Missing \x27source\x27 parameter")
  else if tool_name = "get_service_mapping" then
    match argStr arguments "service" with
    | some service => env.get_service_mapping service
    | none => .error (.invalidInput "Missing \x27service\x27 parameter")
  else if tool_name = "list_services" then
    (env.list_services ()).map joinServices
  else if tool_name = "generate_documentation" then
    env.generate_documentation ((argStr arguments "service").getD "")
      ((argStr arguments "changes").getD "") (argStr arguments "format")
  else if tool_name = "update_documentation" then
    env.update_documentation ((argStr arguments "service").getD "")
      ((argStr arguments "doc_path").getD "") ((argStr arguments "content").getD "")
  else if tool_name = "search_services" then
    match argStr arguments "query" with
    | some query => env.search_services query
    | none => .error (.invalidInput "Missing \x27query\x27 parameter")
  else if tool_name = "search_by_feature" then
    match argStr arguments "feature" with
    | some feature => env.search_by_feature feature
    | none => .error (.invalidInput "Missing \x27feature\x27 parameter")
  else if tool_name = "search_by_keyword" then
    match argStr arguments "keyword" with
    | some keyword => env.search_by_keyword keyword
    | none => .error (.invalidInput "Missing \x27keyword\x27 parameter")
  else if tool_name = "automated_documentation_workflow" then
    env.automated_documentation_workflow ((argStr arguments "service").getD "")
      ((argStr arguments "source").getD "")
  else if tool_name = "detect_service_name" then env.detect_service_name ()
  else if tool_name = "get_repository_info" then env.get_repository_info ()
  else .error (.invalidInput ("Unknown tool: " ++ tool_name))

/-- `McpProtocolHandler` (src/mcp/protocol.rs lines 6-10): configured server
name and version, the handler's only state. -/
structure McpProtocolHandler where
  server_name : String
  server_version : String

/-- `request.get("method").and_then(|m| m.as_str()).unwrap_or("")`. -/
def methodOf (request : Json) : String :=
  ((request.getField "method").bind Json.asStr).getD ""

/-- `id.is_none() || (id.is_some() && id.unwrap().is_null())`
(src/mcp/protocol.rs line 37 and src/mcp/server.rs line 198). -/
def isNotificationOf (id : Option Json) : Bool :=
  match id with
  | none => true
  | some v => v.isNull

/-- serde serialization of an `Option<&Value>` placed in a `json!` literal:
`None` becomes JSON `null`. -/
def idJson (id : Option Json) : Json := id.getD .null

/-- The -32600 Invalid Request response (src/mcp/protocol.rs lines 46-54). -/
def invalidRequestResponse (id : Option Json) : Json :=
  .obj [("jsonrpc", .str "2.0"), ("id", idJson id),
    ("error", .obj [("code", .num (-32600)), ("message", .str "Invalid Request"),
      ("data", .str "Missing \x27method\x27 field")])]

/-- `McpProtocolHandler::handle_initialize` (src/mcp/protocol.rs lines 68-97). -/
def handleInitialize (h : McpProtocolHandler) (id : Option Json)
    (is_notification : Bool) : Option Json :=
  if is_notification then none
  else some (.obj [("jsonrpc", .str "2.0"), ("id", idJson id),
    ("result", .obj [("protocolVersion", .str "2024-11-05"),
      ("capabilities", .obj [("tools", .obj [("listChanged", .bool false)]),
        ("logging", .obj [])]),
      ("serverInfo", .obj [("name", .str h.server_name),
        ("version", .str h.server_version)])])])

/-- `McpProtocolHandler::handle_tools_list` (src/mcp/protocol.rs lines 99-117). -/
def handleToolsList (id : Option Json) (is_notification : Bool) : Option Json :=
  if is_notification then none
  else some (.obj [("jsonrpc", .str "2.0"), ("id", idJson id),
    ("result", .obj [("tools", .arr getToolsList)])])

/-- `McpProtocolHandler::handle_tools_call` (src/mcp/protocol.rs lines 119-163). -/
def handleToolsCall (env : ToolEnv) (request : Json) (id : Option Json)
    (is_notification : Bool) : Option Json :=
  if is_notification then none
  else
    let params := (request.getField "params").getD (.obj [])
    let tool_name := ((params.getField "name").bind Json.asStr).getD ""
    let arguments := (params.getField "arguments").getD (.obj [])
    match executeTool env tool_name arguments with
    | .ok result => some (.obj [("jsonrpc", .str "2.0"), ("id", idJson id),
        ("result", .obj [("content", .arr [.obj [("type", .str "text"),
          ("text", .str result)]])])])
    | .error e => some (.obj [("jsonrpc", .str "2.0"), ("id", idJson id),
        ("error", .obj [("code", .num (-32000)), ("message", .str "Tool execution failed"),
          ("data", .str e.render)])])

/-- `McpProtocolHandler::handle_ping` (src/mcp/protocol.rs lines 165-176). -/
def handlePing (id : Option Json) (is_notification : Bool) : Option Json :=
  if is_notification then none
  else some (.obj [("jsonrpc", .str "2.0"), ("id", idJson id), ("result", .obj [])])

/-- `McpProtocolHandler::handle_unknown_method` (src/mcp/protocol.rs lines 178-198). -/
def handleUnknownMethod (method : String) (id : Option Json)
    (is_notification : Bool) : Option Json :=
  if is_notification then none
  else some (.obj [("jsonrpc", .str "2.0"), ("id", idJson id),
    ("error", .obj [("code", .num (-32601)), ("message", .str "Method not found"),
      ("data", .str ("Unknown method: " ++ method))])])

/-- `McpProtocolHandler::handle_message` (src/mcp/protocol.rs lines 22-66).
The input is the serde parse outcome of the raw message (`none` = parse
failure); the Rust function always returns `Ok`, so the result is just the
optional response. -/
def McpProtocolHandler.handleMessage (h : McpProtocolHandler) (env : ToolEnv)
    (parsed : Option Json) : Option Json :=
  match parsed with
  | none => none
  | some request =>
    let method := methodOf request
    let id := request.getField "id"
    let is_notification := isNotificationOf id
    if method = "" then
      if is_notification then none else some (invalidRequestResponse id)
    else if method = "initialize" then handleInitialize h id is_notification
    else if method = "tools/list" then handleToolsList id is_notification
    else if method = "tools/call" then handleToolsCall env request id is_notification
    else if method = "ping" then handlePing id is_notification
    else handleUnknownMethod method id is_notification

/-- Response assembly in the stdio and stream servers: the `json!` literal is
built without an `id` key, then `response["id"] = request_id` inserts it only
when the request carried one. -/
def withOptId (fields : List (String × Json)) (id : Option Json) : Json :=
  match id with
  | some v => .obj (fields ++ [("id", v)])
  | none => .obj fields

/-- `.unwrap_or_else(|e| format!("Error: {}", e))` on a tool result. -/
def orError : Except KtmeError String → String
  | .ok r => r
  | .error e => "Error: " ++ e.render

/-- `StdioServer`'s notification test: `id.is_none()` alone
(src/mcp/stdio_server.rs line 94) — an explicit `null` id counts as a request. -/
def isNotifStdio (request : Json) : Bool := (request.getField "id").isNone

/-- The five tool descriptors of `StdioServer::handle_message`'s `tools/list`
branch (src/mcp/stdio_server.rs lines 126-208). -/
def stdioToolsList : List Json := [
  .obj [("name", .str "read_changes"),
    ("description", .str "Read extracted code changes from Git"),
    ("inputSchema", .obj [("type", .str "object"),
      ("properties", .obj [("source", .obj [("type", .str "string"),
        ("description", .str "Source identifier (commit hash, \x27staged\x27, or file path)")])]),
      ("required", .arr [.str "source"])])],
  .obj [("name", .str "get_service_mapping"),
    ("description", .str "Get documentation location for a service"),
    ("inputSchema", .obj [("type", .str "object"),
      ("properties", .obj [("service", .obj [("type", .str "string"),
        ("description", .str "Service name")])]),
      ("required", .arr [.str "service"])])],
  .obj [("name", .str "list_services"),
    ("description", .str "List all mapped services"),
    ("inputSchema", .obj [("type", .str "object"), ("properties", .obj [])])],
  .obj [("name", .str "generate_documentation"),
    ("description", .str "Generate documentation from code changes"),
    ("inputSchema", .obj [("type", .str "object"),
      ("properties", .obj [
        ("service", .obj [("type", .str "string"), ("description", .str "Service name")]),
        ("changes", .obj [("type", .str "string"),
          ("description", .str "JSON string of extracted changes")]),
        ("format", .obj [("type", .str "string"),
          ("description", .str "Output format (markdown, json)"),
          ("enum", .arr [.str "markdown", .str "json"])])]),
      ("required", .arr [.str "service", .str "changes"])])],
  .obj [("name", .str "update_documentation"),
    ("description", .str "Update existing documentation"),
    ("inputSchema", .obj [("type", .str "object"),
      ("properties", .obj [
        ("service", .obj [("type", .str "string"), ("description", .str "Service name")]),
        ("doc_path", .obj [("type", .str "string"),
          ("description", .str "Path to documentation file")]),
        ("content", .obj [("type", .str "string"),
          ("description", .str "Content to append/update")])]),
      ("required", .arr [.str "service", .str "doc_path", .str "content"])])]]

/-- The `tools/call` result string of `StdioServer::handle_message`
(src/mcp/stdio_server.rs lines 236-275): every outcome, including an unknown
tool name, is rendered as a plain result string, never as a JSON-RPC error. -/
def stdioToolCallResult (env : ToolEnv) (tool_name : String) (arguments : Json) :
    String :=
  if tool_name = "read_changes" then
    match argStr arguments "source" with
    | some source => orError (env.read_changes source)
    | none => "Error: No source provided"
  else if tool_name = "get_service_mapping" then
    match argStr arguments "service" with
    | some service => orError (env.get_service_mapping service)
    | none => "Error: No service provided"
  else if tool_name = "list_services" then
    orError ((env.list_services ()).map joinServices)
  else if tool_name = "generate_documentation" then
    orError (env.generate_documentation ((argStr arguments "service").getD "")
      ((argStr arguments "changes").getD "") (argStr arguments "format"))
  else if tool_name = "update_documentation" then
    orError (env.update_documentation ((argStr arguments "service").getD "")
      ((argStr arguments "doc_path").getD "") ((argStr arguments "content").getD ""))
  else "Unknown tool: " ++ tool_name

/-- `StdioServer::handle_message` (src/mcp/stdio_server.rs lines 85-314),
returning the list of response lines it writes (zero or one). Note: the
notification check here is `id.is_none()` only (line 94), there is no `ping`
branch, no empty-method check, and the unknown-method error carries no data. -/
def stdioHandleMessage (env : ToolEnv) (request : Json) : List Json :=
  if isNotifStdio request then [] else
  if methodOf request = "initialize" then
    [withOptId [("jsonrpc", .str "2.0"),
      ("result", .obj [("protocolVersion", .str "2024-11-05"),
        ("capabilities", .obj [("tools", .obj [("listChanged", .bool false)]),
          ("logging", .obj [])]),
        ("serverInfo", .obj [("name", .str "ktme-mcp-server"),
          ("version", .str "0.1.0")])])] (request.getField "id")]
  else if methodOf request = "tools/list" then
    [withOptId [("jsonrpc", .str "2.0"),
      ("result", .obj [("tools", .arr stdioToolsList)])] (request.getField "id")]
  else if methodOf request = "tools/call" then
    [withOptId [("jsonrpc", .str "2.0"),
      ("result", .obj [("content", .arr [.obj [("type", .str "text"),
        ("text", .str (stdioToolCallResult env
          ((((request.getField "params").getD (.obj [])).getField "name").bind
              Json.asStr |>.getD "")
          (((request.getField "params").getD (.obj [])).getField "arguments"
            |>.getD (.obj []))))]])])] (request.getField "id")]
  else
    [withOptId [("jsonrpc", .str "2.0"),
      ("error", .obj [("code", .num (-32601)),
        ("message", .str "Method not found")])] (request.getField "id")]

/-- The -32700 parse-error line written by `StdioServer::run` on invalid JSON
(src/mcp/stdio_server.rs lines 38-48). -/
def stdioParseErrorResponse : Json :=
  .obj [("jsonrpc", .str "2.0"), ("id", .null),
    ("error", .obj [("code", .num (-32700)), ("message", .str "Parse error")])]

/-- One iteration of `StdioServer::run` (src/mcp/stdio_server.rs lines 23-79)
on a non-empty line: the list of response lines written. A parse failure
(`none`) is answered with the -32700 parse-error line; otherwise the parsed
request goes to `StdioServer::handle_message` (which never errs in the model,
so the -32603 branch is unreachable). -/
def stdioRunStep (env : ToolEnv) (parsed : Option Json) : List Json :=
  match parsed with
  | none => [stdioParseErrorResponse]
  | some request => stdioHandleMessage env request

/-- The configuration visible to `McpServer::handle_message` (src/mcp/server.rs):
the configured server name and the compile-time `CARGO_PKG_VERSION` constant. -/
structure McpServerModel where
  server_name : String
  cargo_pkg_version : String

/-- One Ok/Err response pair of `McpServer::handle_message`'s `tools/call`
branches (src/mcp/server.rs lines 443-469 and the ten analogous pairs):
success wraps the string as text content, failure becomes the -32000 error
whose `data` is the failure's rendering. -/
def serverToolResponse (id : Option Json) (r : Except KtmeError String) : Json :=
  match r with
  | .ok result => .obj [("jsonrpc", .str "2.0"), ("id", idJson id),
      ("result", .obj [("content", .arr [.obj [("type", .str "text"),
        ("text", .str result)]])])]
  | .error e => .obj [("jsonrpc", .str "2.0"), ("id", idJson id),
      ("error", .obj [("code", .num (-32000)), ("message", .str "Tool execution failed"),
        ("data", .str e.render)])]

/-- The `tools/call` dispatch of `McpServer::handle_message`
(src/mcp/server.rs lines 440-793), returning the responses written. The
branches guarded by `if let Some(x) = ...` with no else (read_changes,
get_service_mapping, search_services, search_by_feature, search_by_keyword)
write nothing when the string parameter is missing; an unmatched tool name
falls to the -32601 Method-not-found response (lines 781-792). -/
def mcpServerToolsCall (env : ToolEnv) (id : Option Json) (tool_name : String)
    (arguments : Json) : List Json :=
  if tool_name = "read_changes" then
    match argStr arguments "source" with
    | some source => [serverToolResponse id (env.read_changes source)]
    | none => []
  else if tool_name = "get_service_mapping" then
    match argStr arguments "service" with
    | some service => [serverToolResponse id (env.get_service_mapping service)]
    | none => []
  else if tool_name = "list_services" then
    [serverToolResponse id ((env.list_services ()).map joinServices)]
  else if tool_name = "generate_documentation" then
    [serverToolResponse id (env.generate_documentation
      ((argStr arguments "service").getD "")
      ((argStr arguments "changes").getD "") (argStr arguments "format"))]
  else if tool_name = "update_documentation" then
    [serverToolResponse id (env.update_documentation
      ((argStr arguments "service").getD "")
      ((argStr arguments "doc_path").getD "") ((argStr arguments "content").getD ""))]
  else if tool_name = "search_services" then
    match argStr arguments "query" with
    | some query => [serverToolResponse id (env.search_services query)]
    | none => []
  else if tool_name = "search_by_feature" then
    match argStr arguments "feature" with
    | some feature => [serverToolResponse id (env.search_by_feature feature)]
    | none => []
  else if tool_name = "search_by_keyword" then
    match argStr arguments "keyword" with
    | some keyword => [serverToolResponse id (env.search_by_keyword keyword)]
    | none => []
  else if tool_name = "automated_documentation_workflow" then
    [serverToolResponse id (env.automated_documentation_workflow
      ((argStr arguments "service").getD "") ((argStr arguments "source").getD ""))]
  else if tool_name = "detect_service_name" then
    [serverToolResponse id (env.detect_service_name ())]
  else if tool_name = "get_repository_info" then
    [serverToolResponse id (env.get_repository_info ())]
  else
    [.obj [("jsonrpc", .str "2.0"), ("id", idJson id),
      ("error", .obj [("code", .num (-32601)), ("message", .str "Method not found"),
        ("data", .str ("Unknown tool: " ++ tool_name))])]]

/-- `McpServer::handle_message` (src/mcp/server.rs lines 178-825), the stream
loop's handler, returning the list of responses written. Input is the serde
parse outcome; a parse failure writes nothing (lines 179-188). The
notification rule is `id` missing or null (line 198); the tool catalog
literal of its `tools/list` branch (lines 254-412) is textually identical to
`get_tools_list` of src/mcp/protocol.rs. -/
def mcpServerHandleMessage (srv : McpServerModel) (env : ToolEnv)
    (parsed : Option Json) : List Json :=
  match parsed with
  | none => []
  | some request =>
    let method := methodOf request
    let id := request.getField "id"
    let is_notification := isNotificationOf id
    if method = "" then
      if is_notification then [] else
        [withOptId [("jsonrpc", .str "2.0"),
          ("error", .obj [("code", .num (-32600)), ("message", .str "Invalid Request"),
            ("data", .str "Missing \x27method\x27 field")])] id]
    else if method = "initialize" then
      if is_notification then [] else
        [withOptId [("jsonrpc", .str "2.0"),
          ("result", .obj [("protocolVersion", .str "2024-11-05"),
            ("capabilities", .obj [("tools", .obj [("listChanged", .bool false)]),
              ("logging", .obj [])]),
            ("serverInfo", .obj [("name", .str srv.server_name),
              ("version", .str srv.cargo_pkg_version)])])] id]
    else if method = "tools/list" then
      if is_notification then [] else
        [withOptId [("jsonrpc", .str "2.0"),
          ("result", .obj [("tools", .arr getToolsList)])] id]
    else if method = "tools/call" then
      if is_notification then [] else
        mcpServerToolsCall env id
          ((((request.getField "params").getD (.obj [])).getField "name").bind
            Json.asStr |>.getD "")
          (((request.getField "params").getD (.obj [])).getField "arguments"
            |>.getD (.obj []))
    else if method = "ping" then
      if is_notification then [] else
        [.obj [("jsonrpc", .str "2.0"), ("id", idJson id), ("result", .obj [])]]
    else
      if is_notification then [] else
        [.obj [("jsonrpc", .str "2.0"), ("id", idJson id),
          ("error", .obj [("code", .num (-32601)), ("message", .str "Method not found"),
            ("data", .str ("Unknown method: " ++ method))])]]

/-- The fixed byte sequences written per accepted connection by
`McpServer::run_sse_server` (src/mcp/server.rs lines 154-174), in order. -/
def sseHeaders : List String := [
  "HTTP/1.1 200 OK\r\n",
  "Content-Type: text/event-stream\r\n",
  "Cache-Control: no-cache\r\n",
  "Connection: close\r\n",
  "\r\n"]

/-- What `McpServer::run_sse_server` writes back on one connection
(src/mcp/server.rs lines 142-176): the fixed SSE headers; the received
request bytes are read into `_request` and discarded (the body is a TODO
stub), so the output never depends on the request. -/
def sseConnectionWrites (_request : String) : List String := sseHeaders

/-- Projection: a response's `error.code`. -/
def errorCode (resp : Json) : Option Int :=
  ((resp.getField "error").bind (fun e => e.getField "code")).bind Json.asNum

/-- Projection: a response's `error.data`. -/
def errorData (resp : Json) : Option Json :=
  (resp.getField "error").bind (fun e => e.getField "data")

/-- Projection: a response's `id`. -/
def respId (resp : Json) : Option Json := resp.getField "id"

/-- Projection: the number of tools in a `tools/list` response. -/
def toolsCount (resp : Json) : Option Nat :=
  (((resp.getField "result").bind (fun r => r.getField "tools")).bind
    Json.asArr).map List.length

/-- Projection: a response's `result.serverInfo.name`. -/
def serverInfoName (resp : Json) : Option Json :=
  ((resp.getField "result").bind (fun r => r.getField "serverInfo")).bind
    (fun s => s.getField "name")

/-- A request message `{"jsonrpc":"2.0","id":<id>,"method":<method>}`. -/
def mkRequest (id : Json) (method : String) : Json :=
  .obj [("jsonrpc", .str "2.0"), ("id", id), ("method", .str method)]

/-- A `tools/call` request with the given id, tool name and arguments. -/
def mkToolsCall (id : Json) (tool : String) (args : Json) : Json :=
  .obj [("jsonrpc", .str "2.0"), ("id", id), ("method", .str "tools/call"),
    ("params", .obj [("name", .str tool), ("arguments", args)])]

/-- An argument bag supplying every string parameter any catalog tool reads. -/
def fullArgs : Json := .obj [
  ("source", .str "HEAD"), ("service", .str "svc"), ("query", .str "q"),
  ("feature", .str "f"), ("keyword", .str "k"), ("changes", .str "c"),
  ("doc_path", .str "d"), ("content", .str "x"), ("format", .str "markdown")]

/-- An environment whose `read_changes` collaborator fails with a fixed
descriptive message. -/
def failEnv : ToolEnv :=
  { defaultEnv with read_changes := fun _ => .error (.other "disk on fire") }

/-- Helper: the shared protocol handler is silent on any message without an
`id` field. -/
theorem no_id_silent_aux (h : McpProtocolHandler) (env : ToolEnv)
    (request : Json) (hid : request.getField "id" = none) :
    h.handleMessage env (some request) = none := by
  unfold McpProtocolHandler.handleMessage
  simp [hid, isNotificationOf, handleInitialize, handleToolsList, handleToolsCall,
    handlePing, handleUnknownMethod]

/-- Claim C1: a JSON message whose top-level document lacks an `id` field is a
notification, and `McpProtocolHandler::handle_message` returns no response for
it, whatever the `method` and `params` are. -/
theorem protocol_no_id_is_silent (h : McpProtocolHandler) (env : ToolEnv)
    (request : Json) (hid : request.getField "id" = none) :
    h.handleMessage env (some request) = none :=
  no_id_silent_aux h env request hid

/-- Witness for C1: the concrete no-id `tools/call` message gets no response. -/
theorem protocol_no_id_is_silent_witness :
    (Json.obj [("jsonrpc", Json.str "2.0"), ("method", Json.str "tools/call")]).getField
      "id" = none ∧
    McpProtocolHandler.handleMessage ⟨"ktme-mcp-server", "0.1.0"⟩ defaultEnv
      (some (Json.obj [("jsonrpc", Json.str "2.0"), ("method", Json.str "tools/call")])) =
      none :=
  ⟨rfl, protocol_no_id_is_silent _ _ _ rfl⟩

/-- Counterexample to claim C2: on an unparsable input line the stream-mode
`StdioServer::run` loop does produce output — the -32700 parse-error response
line — contradicting the claim that no line (in particular no -32700) is
written. -/
theorem stdio_parse_error_emits_line :
    stdioRunStep defaultEnv none = [stdioParseErrorResponse] ∧
    errorCode stdioParseErrorResponse = some (-32700) :=
  ⟨rfl, rfl⟩

/-- Claim C2 (amended): on a parse failure the shared protocol handler
returns no response, but `StdioServer::run` writes exactly the -32700
parse-error line with a null id. -/
theorem parse_failure_behaviour (h : McpProtocolHandler) (env : ToolEnv) :
    h.handleMessage env none = none ∧
    stdioRunStep env none = [stdioParseErrorResponse] ∧
    errorCode stdioParseErrorResponse = some (-32700) ∧
    respId stdioParseErrorResponse = some .null :=
  ⟨rfl, rfl, rfl, rfl⟩

/-- Claim C8: the concrete `initialize` request with id 1 is answered with the
full capability document, the configured server name, and the same id. -/
theorem initialize_scenario (name ver : String) (env : ToolEnv) :
    McpProtocolHandler.handleMessage ⟨name, ver⟩ env
      (some (mkRequest (.num 1) "initialize")) =
      some (.obj [("jsonrpc", .str "2.0"), ("id", .num 1),
        ("result", .obj [("protocolVersion", .str "2024-11-05"),
          ("capabilities", .obj [("tools", .obj [("listChanged", .bool false)]),
            ("logging", .obj [])]),
          ("serverInfo", .obj [("name", .str name), ("version", .str ver)])])]) ∧
    (McpProtocolHandler.handleMessage ⟨name, ver⟩ env
      (some (mkRequest (.num 1) "initialize"))).bind serverInfoName =
      some (.str name) ∧
    (McpProtocolHandler.handleMessage ⟨name, ver⟩ env
      (some (mkRequest (.num 1) "initialize"))).bind respId = some (.num 1) := by
  refine ⟨rfl, ?_, ?_⟩ <;>
    simp [McpProtocolHandler.handleMessage, mkRequest, methodOf, Json.getField,
      lookupField, Json.asStr, isNotificationOf, Json.isNull, handleInitialize,
      idJson, serverInfoName, respId]

/-- Counterexample to claim C4: a message whose `id` field is present but
explicitly `null`, with no `method`, gets no response at all from
`McpProtocolHandler::handle_message` — not the claimed -32600 error Response. -/
theorem null_id_missing_method_is_silent :
    (Json.obj [("jsonrpc", Json.str "2.0"), ("id", Json.null)]).getField "id" =
      some .null ∧
    McpProtocolHandler.handleMessage ⟨"ktme-mcp-server", "0.1.0"⟩ defaultEnv
      (some (Json.obj [("jsonrpc", Json.str "2.0"), ("id", Json.null)])) = none :=
  ⟨rfl, rfl⟩

/-- Claim C4 (amended): for a message whose `id` field is present and
non-null while the `method` field is missing, non-string, or empty,
`McpProtocolHandler::handle_message` returns the -32600 Invalid Request
error Response carrying the request's `id`. -/
theorem invalid_request_error (h : McpProtocolHandler) (env : ToolEnv)
    (request : Json) (v : Json) (hid : request.getField "id" = some v)
    (hnull : v.isNull = false) (hm : methodOf request = "") :
    h.handleMessage env (some request) = some (invalidRequestResponse (some v)) ∧
    respId (invalidRequestResponse (some v)) = some v ∧
    errorCode (invalidRequestResponse (some v)) = some (-32600) := by
  refine ⟨?_, ?_, ?_⟩
  · unfold McpProtocolHandler.handleMessage
    simp [hid, hm, isNotificationOf, hnull]
  · simp [invalidRequestResponse, respId, Json.getField, lookupField, idJson]
  · simp [invalidRequestResponse, errorCode, Json.getField, lookupField, Json.asNum]

/-- Witness for C4 (amended): a message with id 3 and no method field gets
the -32600 response with id 3. -/
theorem invalid_request_error_witness :
    (Json.obj [("jsonrpc", Json.str "2.0"), ("id", Json.num 3)]).getField "id" =
        some (.num 3) ∧
      (Json.num 3).isNull = false ∧
      methodOf (Json.obj [("jsonrpc", Json.str "2.0"), ("id", Json.num 3)]) = "" ∧
    McpProtocolHandler.handleMessage ⟨"ktme-mcp-server", "0.1.0"⟩ defaultEnv
      (some (Json.obj [("jsonrpc", Json.str "2.0"), ("id", Json.num 3)])) =
      some (invalidRequestResponse (some (.num 3))) :=
  ⟨rfl, rfl, rfl,
    (invalid_request_error ⟨"ktme-mcp-server", "0.1.0"⟩ defaultEnv
      (Json.obj [("jsonrpc", Json.str "2.0"), ("id", Json.num 3)])
      (Json.num 3) rfl rfl rfl).1⟩

/-- Claim C7: a `tools/list` request is always answered with exactly the
static catalog `get_tools_list`, whose name column is the fixed
eleven-entry list in source order; the response depends on no state at all
(neither the handler's configuration nor the tool environment), so two
successive calls yield equal results. -/
theorem tools_list_is_static_catalog (h h2 : McpProtocolHandler)
    (env env2 : ToolEnv) (idv : Json) (hnull : idv.isNull = false) :
    h.handleMessage env (some (mkRequest idv "tools/list")) =
      some (.obj [("jsonrpc", .str "2.0"), ("id", idv),
        ("result", .obj [("tools", .arr getToolsList)])]) ∧
    h.handleMessage env (some (mkRequest idv "tools/list")) =
      h2.handleMessage env2 (some (mkRequest idv "tools/list")) ∧
    catalogToolNames = ["read_changes", "get_service_mapping", "list_services",
      "generate_documentation", "update_documentation", "search_services",
      "search_by_feature", "search_by_keyword", "automated_documentation_workflow",
      "detect_service_name", "get_repository_info"] := by
  have key : ∀ (h3 : McpProtocolHandler) (env3 : ToolEnv),
      h3.handleMessage env3 (some (mkRequest idv "tools/list")) =
      some (.obj [("jsonrpc", .str "2.0"), ("id", idv),
        ("result", .obj [("tools", .arr getToolsList)])]) := by
    intro h3 env3
    unfold McpProtocolHandler.handleMessage
    simp [mkRequest, methodOf, Json.getField, lookupField, Json.asStr,
      isNotificationOf, hnull, handleToolsList, idJson]
  exact ⟨key h env, (key h env).trans (key h2 env2).symm, rfl⟩

/-- Witness for C7: the catalog response at the concrete id 2. -/
theorem tools_list_is_static_catalog_witness :
    (Json.num 2).isNull = false ∧
    McpProtocolHandler.handleMessage ⟨"ktme-mcp-server", "0.1.0"⟩ defaultEnv
      (some (mkRequest (.num 2) "tools/list")) =
      some (.obj [("jsonrpc", .str "2.0"), ("id", .num 2),
        ("result", .obj [("tools", .arr getToolsList)])]) :=
  ⟨rfl, (tools_list_is_static_catalog ⟨"ktme-mcp-server", "0.1.0"⟩
    ⟨"ktme-mcp-server", "0.1.0"⟩ defaultEnv defaultEnv (.num 2) rfl).1⟩

/-- Claim C5: for a `tools/call` request (non-null id) naming a registered
tool, the handler's response is fully determined by the dispatcher's verdict:
a failure `e` becomes the -32000 error whose `data` is exactly `e`'s
rendering, and a success `s` becomes the `{content:[{type:"text",text:s}]}`
result. -/
theorem tools_call_result_mapping (h : McpProtocolHandler) (env : ToolEnv)
    (idv args : Json) (tool : String) (hnull : idv.isNull = false)
    (_hreg : tool ∈ catalogToolNames) :
    (∀ e, executeTool env tool args = .error e →
      h.handleMessage env (some (mkToolsCall idv tool args)) =
        some (.obj [("jsonrpc", .str "2.0"), ("id", idv),
          ("error", .obj [("code", .num (-32000)),
            ("message", .str "Tool execution failed"),
            ("data", .str e.render)])])) ∧
    (∀ s, executeTool env tool args = .ok s →
      h.handleMessage env (some (mkToolsCall idv tool args)) =
        some (.obj [("jsonrpc", .str "2.0"), ("id", idv),
          ("result", .obj [("content", .arr [.obj [("type", .str "text"),
            ("text", .str s)]])])])) := by
  constructor <;> intro r hr <;>
  · unfold McpProtocolHandler.handleMessage
    simp [mkToolsCall, methodOf, Json.getField, lookupField, Json.asStr,
      isNotificationOf, hnull, handleToolsCall, idJson, hr]

/-- Witness for C5: with a collaborator environment whose `read_changes`
fails with message "disk on fire", the response's `data` is that string. -/
theorem tools_call_result_mapping_witness :
    (Json.num 5).isNull = false ∧
    "read_changes" ∈ catalogToolNames ∧
    executeTool failEnv "read_changes" fullArgs = .error (.other "disk on fire") ∧
    McpProtocolHandler.handleMessage ⟨"ktme-mcp-server", "0.1.0"⟩ failEnv
      (some (mkToolsCall (.num 5) "read_changes" fullArgs)) =
      some (.obj [("jsonrpc", .str "2.0"), ("id", .num 5),
        ("error", .obj [("code", .num (-32000)),
          ("message", .str "Tool execution failed"),
          ("data", .str "disk on fire")])]) :=
  ⟨rfl, by decide, rfl,
    (tools_call_result_mapping ⟨"ktme-mcp-server", "0.1.0"⟩ failEnv (.num 5)
      fullArgs "read_changes" rfl (by decide)).1 (.other "disk on fire") rfl⟩

/-- Counterexample to claim C3: a `tools/call` request (id 7) for the
unregistered tool name "no_such_tool" is answered by
`McpProtocolHandler::handle_message` with error code -32000 (Tool execution
failed), not the claimed -32601. -/
theorem protocol_unknown_tool_gives_32000 :
    "no_such_tool" ∉ catalogToolNames ∧
    McpProtocolHandler.handleMessage ⟨"ktme-mcp-server", "0.1.0"⟩ defaultEnv
      (some (mkToolsCall (.num 7) "no_such_tool" (.obj []))) =
      some (.obj [("jsonrpc", .str "2.0"), ("id", .num 7),
        ("error", .obj [("code", .num (-32000)),
          ("message", .str "Tool execution failed"),
          ("data", .str "Invalid input: Unknown tool: no_such_tool")])]) :=
  ⟨by decide, rfl⟩

/-- Claim C3 (amended): a `tools/call` request (present, non-null id) whose
params.name is not in the catalog is answered by
`McpProtocolHandler::handle_message` with the -32000 error whose `data` is
"Invalid input: Unknown tool: {name}" (the dispatcher's `InvalidInput`
fallback, rendered), while `McpServer::handle_message` answers the same
request with the -32601 Method-not-found error. -/
theorem unknown_tool_error_codes (h : McpProtocolHandler) (srv : McpServerModel)
    (env : ToolEnv) (idv args : Json) (tool : String)
    (hnull : idv.isNull = false) (hname : tool ∉ catalogToolNames) :
    h.handleMessage env (some (mkToolsCall idv tool args)) =
      some (.obj [("jsonrpc", .str "2.0"), ("id", idv),
        ("error", .obj [("code", .num (-32000)),
          ("message", .str "Tool execution failed"),
          ("data", .str ("Invalid input: Unknown tool: " ++ tool))])]) ∧
    mcpServerHandleMessage srv env (some (mkToolsCall idv tool args)) =
      [.obj [("jsonrpc", .str "2.0"), ("id", idv),
        ("error", .obj [("code", .num (-32601)), ("message", .str "Method not found"),
          ("data", .str ("Unknown tool: " ++ tool))])]] := by
  have hlist : catalogToolNames = ["read_changes", "get_service_mapping",
    "list_services", "generate_documentation", "update_documentation",
    "search_services", "search_by_feature", "search_by_keyword",
    "automated_documentation_workflow", "detect_service_name",
    "get_repository_info"] := rfl
  rw [hlist] at hname
  simp only [List.mem_cons, List.not_mem_nil, or_false, not_or] at hname
  obtain ⟨h1, h2, h3, h4, h5, h6, h7, h8, h9, h10, h11⟩ := hname
  have hs : "Invalid input: " ++ ("Unknown tool: " ++ tool) =
      "Invalid input: Unknown tool: " ++ tool := rfl
  constructor
  · unfold McpProtocolHandler.handleMessage
    simp [mkToolsCall, methodOf, Json.getField, lookupField, Json.asStr,
      isNotificationOf, hnull, handleToolsCall, idJson, executeTool,
      h1, h2, h3, h4, h5, h6, h7, h8, h9, h10, h11, KtmeError.render, hs]
  · unfold mcpServerHandleMessage
    simp [mkToolsCall, methodOf, Json.getField, lookupField, Json.asStr,
      isNotificationOf, hnull, idJson, mcpServerToolsCall,
      h1, h2, h3, h4, h5, h6, h7, h8, h9, h10, h11]

/-- Witness for C3 (amended): both codes at the concrete unregistered name
"no_such_tool" with id 9. -/
theorem unknown_tool_error_codes_witness :
    (Json.num 9).isNull = false ∧ "no_such_tool" ∉ catalogToolNames ∧
    mcpServerHandleMessage ⟨"ktme-mcp-server", "0.1.0"⟩ defaultEnv
      (some (mkToolsCall (.num 9) "no_such_tool" (.obj []))) =
      [.obj [("jsonrpc", .str "2.0"), ("id", .num 9),
        ("error", .obj [("code", .num (-32601)), ("message", .str "Method not found"),
          ("data", .str ("Unknown tool: " ++ "no_such_tool"))])]] :=
  ⟨rfl, by decide,
    (unknown_tool_error_codes ⟨"ktme-mcp-server", "0.1.0"⟩
      ⟨"ktme-mcp-server", "0.1.0"⟩ defaultEnv (.num 9) (.obj []) "no_such_tool"
      rfl (by decide)).2⟩

/-- Counterexample to claim C6: fed the very same `tools/list` request with
id 1, `StdioServer::handle_message` answers with a 5-entry tool list while
`McpProtocolHandler::handle_message` answers with the 11-entry catalog, so
the two transports do not have identical JSON-RPC semantics. -/
theorem stdio_vs_protocol_tools_list_differ :
    (stdioHandleMessage defaultEnv (mkRequest (.num 1) "tools/list")).map
      toolsCount = [some 5] ∧
    (McpProtocolHandler.handleMessage ⟨"ktme-mcp-server", "0.1.0"⟩ defaultEnv
      (some (mkRequest (.num 1) "tools/list"))).map toolsCount =
      some (some 11) :=
  ⟨rfl, rfl⟩

/-- Claim C6 (amended): `StdioServer::handle_message` and
`McpProtocolHandler::handle_message` agree on silence for messages lacking an
`id` field, but otherwise diverge: the stdio server lists 5 tools against the
protocol handler's 11; it treats an explicit null `id` as a request where the
protocol handler stays silent; it has no `ping` branch and answers `ping`
with -32601 where the protocol handler returns an empty result; it answers an
unknown tool name in `tools/call` with a success text result where the
protocol handler returns a -32000 error; and its run loop answers unparsable
input with a -32700 line where the protocol handler stays silent. -/
theorem stdio_vs_protocol_divergence (h : McpProtocolHandler) (env : ToolEnv) :
    (∀ request : Json, request.getField "id" = none →
      stdioHandleMessage env request = [] ∧
      h.handleMessage env (some request) = none) ∧
    ((stdioHandleMessage defaultEnv (mkRequest (.num 1) "tools/list")).map
        toolsCount = [some 5] ∧
      (McpProtocolHandler.handleMessage ⟨"ktme-mcp-server", "0.1.0"⟩ defaultEnv
        (some (mkRequest (.num 1) "tools/list"))).map toolsCount =
        some (some 11)) ∧
    ((stdioHandleMessage defaultEnv (mkRequest .null "initialize")).length = 1 ∧
      McpProtocolHandler.handleMessage ⟨"ktme-mcp-server", "0.1.0"⟩ defaultEnv
        (some (mkRequest .null "initialize")) = none) ∧
    ((stdioHandleMessage defaultEnv (mkRequest (.num 2) "ping")).map errorCode =
        [some (-32601)] ∧
      McpProtocolHandler.handleMessage ⟨"ktme-mcp-server", "0.1.0"⟩ defaultEnv
        (some (mkRequest (.num 2) "ping")) =
        some (.obj [("jsonrpc", .str "2.0"), ("id", .num 2),
          ("result", .obj [])])) ∧
    (stdioHandleMessage defaultEnv (mkToolsCall (.num 3) "ghost" (.obj [])) =
        [.obj [("jsonrpc", .str "2.0"),
          ("result", .obj [("content", .arr [.obj [("type", .str "text"),
            ("text", .str "Unknown tool: ghost")]])]),
          ("id", .num 3)]] ∧
      (McpProtocolHandler.handleMessage ⟨"ktme-mcp-server", "0.1.0"⟩ defaultEnv
        (some (mkToolsCall (.num 3) "ghost" (.obj [])))).map errorCode =
        some (some (-32000))) ∧
    (stdioRunStep env none = [stdioParseErrorResponse] ∧
      h.handleMessage env none = none) := by
  refine ⟨?_, ⟨rfl, rfl⟩, ⟨rfl, rfl⟩, ⟨rfl, rfl⟩, ⟨rfl, rfl⟩, rfl, rfl⟩
  intro request hid
  constructor
  · simp [stdioHandleMessage, isNotifStdio, hid]
  · exact no_id_silent_aux h env request hid

/-- Witness for C6 (amended): notification silence of both handlers at a
concrete no-id message. -/
theorem stdio_vs_protocol_divergence_witness :
    (Json.obj [("method", Json.str "ping")]).getField "id" = none ∧
    stdioHandleMessage defaultEnv (Json.obj [("method", Json.str "ping")]) = [] ∧
    McpProtocolHandler.handleMessage ⟨"ktme-mcp-server", "0.1.0"⟩ defaultEnv
      (some (Json.obj [("method", Json.str "ping")])) = none := by
  have key := (stdio_vs_protocol_divergence ⟨"ktme-mcp-server", "0.1.0"⟩
    defaultEnv).1 (Json.obj [("method", Json.str "ping")]) rfl
  exact ⟨rfl, key.1, key.2⟩

/-- Claim C9: what the network-mode connection handler actually does. A
`GET /status` request (like every other request) is answered with the fixed
SSE headers only: no JSON document — in particular no
`{"status":"running",...,"tools_count":...}` body — is ever written, the
request bytes are discarded unread, and no shutdown flag or endpoint exists. -/
theorem sse_status_request_ignored :
    sseConnectionWrites "GET /status HTTP/1.1\r\nHost: localhost:3000\r\n\r\n" =
      sseHeaders ∧
    sseHeaders.all (fun line => line.data.head? != some '\x7b') = true ∧
    (∀ req : String, sseConnectionWrites req = sseHeaders) :=
  ⟨rfl, by decide, fun _ => rfl⟩

/-- `Result::is_ok()` on a tool dispatch outcome. -/
def exceptIsOk : Except KtmeError String → Bool
  | .ok _ => true
  | .error _ => false

/-- Claim C10: the catalog and the dispatcher are consistent — the eleven
listed tool names are pairwise distinct; each listed name has its own
dispatch branch in `execute_tool` (exhibited by a dispatch that consults the
named collaborator and succeeds, rather than falling through); and every
unlisted name is rejected with exactly
`InvalidInput("Unknown tool: {name}")`. -/
theorem catalog_dispatcher_consistency :
    catalogToolNames.Nodup ∧
    (∀ tool ∈ catalogToolNames,
      exceptIsOk (executeTool defaultEnv tool fullArgs) = true) ∧
    (∀ (env : ToolEnv) (args : Json) (tool : String), tool ∉ catalogToolNames →
      executeTool env tool args =
        .error (.invalidInput ("Unknown tool: " ++ tool))) := by
  refine ⟨by decide, by decide, ?_⟩
  intro env args tool hname
  have hlist : catalogToolNames = ["read_changes", "get_service_mapping",
    "list_services", "generate_documentation", "update_documentation",
    "search_services", "search_by_feature", "search_by_keyword",
    "automated_documentation_workflow", "detect_service_name",
    "get_repository_info"] := rfl
  rw [hlist] at hname
  simp only [List.mem_cons, List.not_mem_nil, or_false, not_or] at hname
  obtain ⟨h1, h2, h3, h4, h5, h6, h7, h8, h9, h10, h11⟩ := hname
  simp [executeTool, h1, h2, h3, h4, h5, h6, h7, h8, h9, h10, h11]

/-- Witness for C10: a listed name dispatches and succeeds; an unlisted name
is rejected with the exact InvalidInput message. -/
theorem catalog_dispatcher_consistency_witness :
    ("read_changes" ∈ catalogToolNames ∧
      exceptIsOk (executeTool defaultEnv "read_changes" fullArgs) = true) ∧
    ("bogus_tool" ∉ catalogToolNames ∧
      executeTool defaultEnv "bogus_tool" fullArgs =
        .error (.invalidInput ("Unknown tool: " ++ "bogus_tool"))) :=
  ⟨⟨by decide, catalog_dispatcher_consistency.2.1 "read_changes" (by decide)⟩,
   ⟨by decide,
    catalog_dispatcher_consistency.2.2 defaultEnv fullArgs "bogus_tool" (by decide)⟩⟩

end Ktme
